import Mathlib

/-!
# Verification of the Tig local provenance tracker

Shallow embedding of the two core source files:

* `src/tig_local_query.js` — the blame/provenance query engine
  (`TigLocalQuery.getShadowContext`, `TigLocalQuery.getBlameInfo`);
* `src/unnamed/part_000` — the sync engine (`TigSync.validateSetup`,
  `TigSync.findModifiedFiles`, `TigSync.syncFileToTig`, `TigSync.sync`).

JavaScript objects parsed from JSON are modelled with `Option`-typed fields
(`none` = the field is absent or `null`); JS truthiness of strings
(`"" `is falsy) is modelled by `jsOr`; ordered JS object iteration
(`Object.entries`) is modelled by association lists.  File-system state is
a partial map from paths to byte lists; external I/O faults are injected
through an explicit oracle.
-/

namespace Tig

/-- JS `a || b` for a string-valued expression `a` that may be absent:
both `undefined`/`null` (`none`) and the empty string are falsy. -/
def jsOr (a : Option String) (b : String) : String :=
  match a with
  | some s => if s = "" then b else s
  | none => b

/-- Models JS `s.startsWith(pre)` (`String.prototype.startsWith`). -/
def jsStartsWith (s pre : String) : Bool :=
  pre.data.isPrefixOf s.data

/-- A conversation record from `micro_index.json` (`conversations` map).
`responses` models the JS `Array.isArray` guard: a missing or malformed
array is the empty list. -/
structure Conversation where
  prompt : Option String
  start_time : Option String
  responses : List String
deriving DecidableEq, Repr

/-- A snapshot record from `micro_index.json` (`snapshots` map). -/
structure Snapshot where
  commit : Option String
  conversation_id : Option String
  timestamp : Option String
deriving DecidableEq, Repr

/-- One entry of a shadow file's `history` array.  Tool-operation records are
opaque payloads, modelled as strings. -/
structure ShadowEntry where
  conversation_id : Option String
  ai_response : Option String
  tool_operations : Option (List String)
  user_prompt : Option String
  timestamp : Option String
deriving DecidableEq, Repr

/-- The parsed content of a shadow file `<basename>.tig`: its `history`
array.  Entries may be `null` (`none`), which the scan skips. -/
structure ShadowFile where
  history : List (Option ShadowEntry)
deriving DecidableEq, Repr

/-- The non-empty record returned by `getShadowContext` (all fields already
defaulted by `|| ''` / `|| []` in the source). -/
structure ShadowContext where
  ai_response : String
  tool_operations : List String
  user_prompt : String
  timestamp : String
deriving DecidableEq, Repr

/-- The in-memory `micro_index.json` (`this.microIndex`).  The maps are
association lists in JS object iteration order; `loadJson`'s fallback is the
empty index. -/
structure MicroIndex where
  conversations : List (String × Conversation)
  snapshots : List (String × Snapshot)
  last_conversation_id : Nat
  last_snapshot_id : Nat
deriving DecidableEq, Repr

/-- The record returned by `getBlameInfo`.  `none` models a JS `null` field
or an absent key (the not-found record has no `commit_hash`/`file_path`
keys at all). -/
structure BlameRecord where
  conversation_id : Option String
  user_prompt : Option String
  prompt : Option String
  ai_response : Option String
  timestamp : Option String
  tool_operations : List String
  commit_hash : Option String
  file_path : Option String
deriving DecidableEq, Repr

/-- Models node's `path.basename` for slash-separated paths: the characters
after the last `/` (the trailing-slash corner case of node is not modelled;
no claim exercises it). -/
def basename (p : String) : String :=
  String.mk ((p.data.reverse.takeWhile (fun c => c ≠ '/')).reverse)

/-- `Array.isArray(conversation.responses) ? conversation.responses : []`
after `conversations[convId] || {}`. -/
def convResponses (c : Option Conversation) : List String :=
  match c with
  | some conv => conv.responses
  | none => []

/-- `(this.microIndex.conversations || {})[convId]`: association-list lookup;
an absent conversation id finds nothing. -/
def lookupConv (convs : List (String × Conversation)) (cid : Option String) :
    Option Conversation :=
  match cid with
  | some c => (convs.find? (fun p => p.1 == c)).map Prod.snd
  | none => none

/-- The record built for a matching history entry in `getShadowContext`
(source lines 56–61): each field defaulted with `|| ''` / `|| []`. -/
def mkShadowContext (e : ShadowEntry) : ShadowContext :=
  { ai_response := jsOr e.ai_response ""
    tool_operations := e.tool_operations.getD []
    user_prompt := jsOr e.user_prompt ""
    timestamp := jsOr e.timestamp "" }

/-- The loop guard `entry && entry.conversation_id === conversationId`
(source line 55).  `none == none` is `true`, matching
`undefined === undefined` when both the entry and the snapshot lack the id. -/
def entryMatches (e : Option ShadowEntry) (cid : Option String) : Bool :=
  match e with
  | some entry => entry.conversation_id == cid
  | none => false

/-- The `for (const entry of history)` loop of `getShadowContext`
(source lines 54–63): first matching entry wins; `null` entries are
skipped; no match yields the empty context. -/
def scanHistory (history : List (Option ShadowEntry)) (cid : Option String) :
    Option ShadowContext :=
  match history with
  | [] => none
  | e :: rest =>
    if entryMatches e cid then
      match e with
      | some entry => some (mkShadowContext entry)
      | none => scanHistory rest cid
    else scanHistory rest cid

/-- `TigLocalQuery.getShadowContext` (source lines 47–68), taking the parsed
shadow-file content directly: `none` models a missing or unparsable shadow
file (both return `{}` in the source). -/
def getShadowContext (shadowFile : Option ShadowFile) (cid : Option String) :
    Option ShadowContext :=
  match shadowFile with
  | some data => scanHistory data.history cid
  | none => none

/-- The snapshot scan of `getBlameInfo` (source lines 72–79):
`stored === commitHash || stored.startsWith(commitHash)`, first match wins,
where `stored = (snapData && snapData.commit) || ''`. -/
def findSnapshot (snaps : List (String × Snapshot)) (commitHash : String) :
    Option Snapshot :=
  match snaps with
  | [] => none
  | (_, snapData) :: rest =>
    let stored := jsOr snapData.commit ""
    if stored == commitHash || jsStartsWith stored commitHash then some snapData
    else findSnapshot rest commitHash

/-- The not-found record of `getBlameInfo` (source lines 81–90). -/
def emptyBlame : BlameRecord :=
  { conversation_id := none
    user_prompt := none
    prompt := none
    ai_response := none
    timestamp := none
    tool_operations := []
    commit_hash := none
    file_path := none }

/-- The found-branch composition of `getBlameInfo` (source lines 92–106).
`shadow` maps a shadow-file base name to the parsed content of
`.tig/shadow/<name>.tig` (`none` = missing/unparsable). -/
def composeBlame (idx : MicroIndex) (shadow : String → Option ShadowFile)
    (commitHash filePath : String) (snapshot : Snapshot) : BlameRecord :=
  let convId := snapshot.conversation_id
  let conversation := lookupConv idx.conversations convId
  let shadowContext := getShadowContext (shadow (basename filePath)) convId
  let responses := convResponses conversation
  { conversation_id := convId
    user_prompt := some (jsOr (conversation.bind Conversation.prompt) "")
    prompt := some (jsOr (conversation.bind Conversation.prompt) "")
    ai_response := some (jsOr (shadowContext.map ShadowContext.ai_response)
      (match responses with | [] => "" | r :: _ => r))
    timestamp := some (jsOr snapshot.timestamp
      (jsOr (conversation.bind Conversation.start_time) ""))
    tool_operations :=
      (match shadowContext with | some c => c.tool_operations | none => [])
    commit_hash := some commitHash
    file_path := some filePath }

/-- `TigLocalQuery.getBlameInfo` (source lines 70–107). -/
def getBlameInfo (idx : MicroIndex) (shadow : String → Option ShadowFile)
    (commitHash filePath : String) : BlameRecord :=
  match findSnapshot idx.snapshots commitHash with
  | none => emptyBlame
  | some snapshot => composeBlame idx shadow commitHash filePath snapshot

/-! ## Sync engine (`src/unnamed/part_000`) -/

/-- A file tree as a partial map from relative paths to byte contents:
`fs p = some bytes` iff the file exists with those bytes. -/
abbrev FS := String → Option (List Nat)

/-- The empty file tree. -/
def emptyFS : FS := fun _ => none

/-- Write `bytes` at path `rp` (models `fs.copyFileSync` into the mirror,
with `fs.mkdirSync recursive` for parents). -/
def updateFile (fs : FS) (rp : String) (bytes : List Nat) : FS :=
  fun p => if p = rp then some bytes else fs p

/-- Remove the file at path `rp` (models `fs.unlinkSync`). -/
def removeFile (fs : FS) (rp : String) : FS :=
  fun p => if p = rp then none else fs p

/-- The environment facts `TigSync.validateSetup` consults: existence of the
`.tig` directory, existence of `.tig/.git`, and the output of
`git status --porcelain` in `.tig` (`none` = the subprocess threw). -/
structure SyncEnv where
  tigDirExists : Bool
  tigGitExists : Bool
  gitStatus : Option String
deriving DecidableEq

/-- Models JS `out.trim()`: strip whitespace from both ends. -/
def jsTrim (s : String) : String :=
  String.mk (((s.data.dropWhile Char.isWhitespace).reverse.dropWhile
    Char.isWhitespace).reverse)

/-- `TigSync.validateSetup` (source lines 49–72): the boolean result paired
with the console messages printed on the failing branch (quotes of the
source messages, emoji prefixes elided). -/
def validateSetup (env : SyncEnv) (force : Bool) : Bool × List String :=
  if !env.tigDirExists then
    (false, ["No .tig directory found",
             "Run a Claude session first to initialize Tig"])
  else if !env.tigGitExists then
    (false, [".tig is not a git repository",
             "Run tig_submodule_setup.py to fix this"])
  else
    match env.gitStatus with
    | none => (false, ["Failed to check git status in .tig"])
    | some out =>
      if jsTrim out ≠ "" && !force then
        (false, ["Uncommitted changes in .tig directory",
                 "Commit or stash changes first, or use --force"])
      else (true, [])

/-- The check loop of `TigSync.findModifiedFiles` in explicit mode
(source lines 80–81 and 110–129): when `specificFiles` is non-empty,
`filesToCheck = specificFiles` and each path is classified against the
project tree and the `.tig` mirror.  Returns `(modified, newFiles, deleted)`
in iteration order.  Discovery mode (directory enumeration when
`specificFiles` is empty) is not modelled; read errors other than absence
are not modelled. -/
def findModifiedFiles (project mirror : FS) (specificFiles : List String) :
    List String × List String × List String :=
  match specificFiles with
  | [] => ([], [], [])
  | rp :: rest =>
    let prev := findModifiedFiles project mirror rest
    match project rp with
    | none => (prev.1, prev.2.1, rp :: prev.2.2)
    | some a =>
      match mirror rp with
      | none => (prev.1, rp :: prev.2.1, prev.2.2)
      | some b => (if a ≠ b then rp :: prev.1 else prev.1, prev.2.1, prev.2.2)

/-- `TigSync.syncFileToTig` (source lines 132–149), threading the mirror
tree.  `ioFails rp = true` injects an I/O fault (a throw inside the `try`)
for the operation touching `rp`; a deletion of an absent path performs no
I/O and cannot fault.  A copy also fails when the project file is absent
(`fs.copyFileSync` throws).  Returns `(success, mirror')`. -/
def syncFileToTig (project : FS) (ioFails : String → Bool) (mirror : FS)
    (rp : String) (isDeletion : Bool) : Bool × FS :=
  if isDeletion then
    match mirror rp with
    | some _ => if ioFails rp then (false, mirror) else (true, removeFile mirror rp)
    | none => (true, mirror)
  else
    if ioFails rp then (false, mirror)
    else
      match project rp with
      | none => (false, mirror)
      | some bytes => (true, updateFile mirror rp bytes)

/-- The two per-file loops of `TigSync.sync` (source lines 174–175): apply
each `(path, isDeletion)` operation in order, counting successes.
Returns `(mirror', successCount)`. -/
def runOps (project : FS) (ioFails : String → Bool) :
    FS → List (String × Bool) → FS × Nat
  | mirror, [] => (mirror, 0)
  | mirror, (rp, isDel) :: rest =>
    let r1 := syncFileToTig project ioFails mirror rp isDel
    let r2 := runOps project ioFails r1.2 rest
    (r2.1, (if r1.1 then 1 else 0) + r2.2)

/-- The outcome of `TigSync.sync`: the boolean return value, whether the
commit step (`git add`/`git commit`) was invoked, the success count, the
number of file operations attempted, the final mirror tree, and the commit
message passed to `git commit -m` (when the commit step ran). -/
structure SyncResult where
  success : Bool
  committed : Bool
  successCount : Nat
  opsAttempted : Nat
  mirror : FS
  commitMessage : Option String

/-- The auto-generated commit message of `TigSync.sync`
(source lines 186–194). -/
def commitMessageFor (message : Option String)
    (modified newFiles deleted : List String) : String :=
  match message with
  | some m => "manual: " ++ m
  | none =>
    let parts :=
      (if modified.length > 0 then
        ["modified " ++ toString modified.length ++ " file(s)"] else []) ++
      (if newFiles.length > 0 then
        ["added " ++ toString newFiles.length ++ " file(s)"] else []) ++
      (if deleted.length > 0 then
        ["deleted " ++ toString deleted.length ++ " file(s)"] else [])
    "manual: Sync " ++ String.intercalate ", " parts

/-- `TigSync.sync` (source lines 151–207).  `commitOk` models the success of
the external `git add`/`git commit`/`rev-parse` sequence (`false` = the
`try` block at lines 183–206 throws). -/
def sync (env : SyncEnv) (project mirror : FS) (ioFails : String → Bool)
    (files : List String) (message : Option String) (force : Bool)
    (commitOk : Bool) : SyncResult :=
  if !(validateSetup env force).1 then
    { success := false, committed := false, successCount := 0
      opsAttempted := 0, mirror := mirror, commitMessage := none }
  else
    let fmd := findModifiedFiles project mirror files
    if fmd.1.isEmpty && fmd.2.1.isEmpty && fmd.2.2.isEmpty then
      { success := true, committed := false, successCount := 0
        opsAttempted := 0, mirror := mirror, commitMessage := none }
    else
      let ops := (fmd.1 ++ fmd.2.1).map (fun f => (f, false)) ++
        fmd.2.2.map (fun f => (f, true))
      let mc := runOps project ioFails mirror ops
      if mc.2 = 0 then
        { success := false, committed := false, successCount := 0
          opsAttempted := ops.length, mirror := mc.1, commitMessage := none }
      else
        { success := commitOk, committed := true, successCount := mc.2
          opsAttempted := ops.length, mirror := mc.1
          commitMessage := some (commitMessageFor message fmd.1 fmd.2.1 fmd.2.2) }

/-! ## Concrete sample data (from the scenarios in the spec) -/

/-- Conversation `C1 = {prompt: "add auth", responses: ["done"]}`. -/
def sampleConv : Conversation :=
  { prompt := some "add auth", start_time := none, responses := ["done"] }

/-- Snapshot `S1 = {commit: "deadbeef01", conversation_id: "C1",
timestamp: "T1"}`. -/
def sampleSnap : Snapshot :=
  { commit := some "deadbeef01", conversation_id := some "C1"
    timestamp := some "T1" }

/-- Index holding `sampleConv` and `sampleSnap`. -/
def sampleIdx : MicroIndex :=
  { conversations := [("C1", sampleConv)]
    snapshots := [("S1", sampleSnap)]
    last_conversation_id := 1, last_snapshot_id := 1 }

/-- Shadow entry for `auth.js`: `{conversation_id: "C1",
ai_response: "Added JWT auth", tool_operations: [{op:"write"}]}`. -/
def sampleEntry : ShadowEntry :=
  { conversation_id := some "C1", ai_response := some "Added JWT auth"
    tool_operations := some ["write"], user_prompt := some "add auth"
    timestamp := some "T0" }

/-- Shadow store holding `auth.js.tig` with one history entry. -/
def sampleShadow : String → Option ShadowFile :=
  fun n => if n = "auth.js" then some ⟨[some sampleEntry]⟩ else none

/-- Like `sampleEntry` but with an empty `ai_response` string. -/
def sampleEntryEmptyResp : ShadowEntry :=
  { conversation_id := some "C1", ai_response := some ""
    tool_operations := some ["write"], user_prompt := some "add auth"
    timestamp := some "T0" }

/-- Shadow store whose `auth.js` entry has an empty `ai_response`. -/
def sampleShadowEmptyResp : String → Option ShadowFile :=
  fun n => if n = "auth.js" then some ⟨[some sampleEntryEmptyResp]⟩ else none

/-- A project tree holding one file `a` with content `[1]`. -/
def projA : FS := updateFile emptyFS "a" [1]

/-- A mirror tree holding one file `a` with content `[2]`. -/
def mirrA : FS := updateFile emptyFS "a" [2]

/-- A snapshot whose stored commit value is `"abc123def"`. -/
def abcSnap : Snapshot :=
  { commit := some "abc123def", conversation_id := none, timestamp := none }

/-- The predicate of the snapshot scan: stored value equals the query or
starts with the query (spec wording for source line 75). -/
def snapshotMatches (s : Snapshot) (q : String) : Bool :=
  jsOr s.commit "" == q || jsStartsWith (jsOr s.commit "") q

/-! ## Theorems -/

/-- The empty string is a prefix of every string. -/
theorem jsStartsWith_empty (s : String) : jsStartsWith s "" = true := by
  simp [jsStartsWith]

/-- C1: the snapshot scan in `getBlameInfo` selects the first snapshot in
iteration order whose stored commit value equals the query hash or starts
with the query hash; concretely, a snapshot with commit `"abc123def"` is
matched by query `"abc123"` and by `"abc123def"` but not by `"xyz"`. -/
theorem findSnapshot_first_match :
    (∀ (snaps : List (String × Snapshot)) (q : String),
      findSnapshot snaps q =
        (snaps.find? (fun p => snapshotMatches p.2 q)).map Prod.snd)
    ∧ findSnapshot [("s1", abcSnap)] "abc123" = some abcSnap
    ∧ findSnapshot [("s1", abcSnap)] "abc123def" = some abcSnap
    ∧ findSnapshot [("s1", abcSnap)] "xyz" = none := by
  refine ⟨fun snaps q => ?_, rfl, rfl, rfl⟩
  induction snaps with
  | nil => rfl
  | cons hd tl ih =>
    obtain ⟨k, s⟩ := hd
    by_cases h : snapshotMatches s q = true
    · simp only [findSnapshot, snapshotMatches] at h ⊢
      simp [h, List.find?_cons_of_pos, snapshotMatches]
    · simp only [findSnapshot, snapshotMatches] at h ⊢
      rw [Bool.or_eq_true] at h
      push_neg at h
      simp [h.1, h.2, List.find?_cons_of_neg, snapshotMatches, ih]

/-- C2: `getShadowContext` returns the context of the first history entry
in stored order whose `conversation_id` equals the target; with two
matching entries, the first (never the second) is returned. -/
theorem getShadowContext_first_match :
    (∀ (data : ShadowFile) (cid : Option String),
      getShadowContext (some data) cid =
        (data.history.find? (fun e => entryMatches e cid)).bind
          (Option.map mkShadowContext))
    ∧ getShadowContext
        (some ⟨[some sampleEntry, some sampleEntryEmptyResp]⟩) (some "C1")
        = some (mkShadowContext sampleEntry) := by
  refine ⟨fun data cid => ?_, rfl⟩
  show scanHistory data.history cid = _
  induction data.history with
  | nil => rfl
  | cons e rest ih =>
    by_cases h : entryMatches e cid = true
    · cases e with
      | none => simp [entryMatches] at h
      | some entry => simp [scanHistory, h, List.find?_cons_of_pos]
    · simp [scanHistory, h, List.find?_cons_of_neg, ih]

/-- C3: when a snapshot is found, the composed blame record takes
`ai_response` from the shadow entry, falling back to the conversation's
first recorded response and then to the empty string; `timestamp` from the
snapshot, falling back to the conversation's `start_time` and then to the
empty string; `tool_operations` only from the shadow entry; and
`user_prompt` and `prompt` both equal the conversation's prompt. -/
theorem getBlameInfo_composition (idx : MicroIndex)
    (shadow : String → Option ShadowFile) (q fp : String) (snap : Snapshot)
    (h : findSnapshot idx.snapshots q = some snap) :
    (getBlameInfo idx shadow q fp).ai_response =
      some (jsOr ((getShadowContext (shadow (basename fp))
          snap.conversation_id).map ShadowContext.ai_response)
        (match convResponses (lookupConv idx.conversations
            snap.conversation_id) with
          | [] => "" | r :: _ => r))
    ∧ (getBlameInfo idx shadow q fp).timestamp =
      some (jsOr snap.timestamp
        (jsOr ((lookupConv idx.conversations
          snap.conversation_id).bind Conversation.start_time) ""))
    ∧ (getBlameInfo idx shadow q fp).tool_operations =
      (match getShadowContext (shadow (basename fp))
          snap.conversation_id with
        | some c => c.tool_operations | none => [])
    ∧ (getBlameInfo idx shadow q fp).user_prompt =
      some (jsOr ((lookupConv idx.conversations
        snap.conversation_id).bind Conversation.prompt) "")
    ∧ (getBlameInfo idx shadow q fp).prompt =
      (getBlameInfo idx shadow q fp).user_prompt := by
  simp only [getBlameInfo, h]
  exact ⟨rfl, rfl, rfl, rfl, rfl⟩

/-- Witness for C3 on the spec's scenario data. -/
theorem getBlameInfo_composition_witness :
    findSnapshot sampleIdx.snapshots "deadbeef" = some sampleSnap
    ∧ (getBlameInfo sampleIdx sampleShadow "deadbeef" "auth.js").ai_response
        = some "Added JWT auth"
    ∧ (getBlameInfo sampleIdx sampleShadow "deadbeef" "auth.js").timestamp
        = some "T1"
    ∧ (getBlameInfo sampleIdx sampleShadow "deadbeef"
        "auth.js").tool_operations = ["write"]
    ∧ (getBlameInfo sampleIdx sampleShadow "deadbeef" "auth.js").user_prompt
        = some "add auth"
    ∧ (getBlameInfo sampleIdx sampleShadow "deadbeef" "auth.js").prompt
        = (getBlameInfo sampleIdx sampleShadow "deadbeef"
            "auth.js").user_prompt := by
  have h := getBlameInfo_composition sampleIdx sampleShadow "deadbeef"
    "auth.js" sampleSnap rfl
  exact ⟨rfl, h.1.trans rfl, h.2.1.trans rfl, h.2.2.1.trans rfl,
    h.2.2.2.1.trans rfl, h.2.2.2.2⟩

/-- C4: when no snapshot matches the commit hash, `getBlameInfo` returns
the record with `conversation_id = null`, every other field `null`, and
`tool_operations = []`; the function is total, so it never throws. -/
theorem getBlameInfo_no_snapshot (idx : MicroIndex)
    (shadow : String → Option ShadowFile) (q fp : String)
    (h : findSnapshot idx.snapshots q = none) :
    (getBlameInfo idx shadow q fp).conversation_id = none
    ∧ (getBlameInfo idx shadow q fp).user_prompt = none
    ∧ (getBlameInfo idx shadow q fp).prompt = none
    ∧ (getBlameInfo idx shadow q fp).ai_response = none
    ∧ (getBlameInfo idx shadow q fp).timestamp = none
    ∧ (getBlameInfo idx shadow q fp).tool_operations = []
    ∧ (getBlameInfo idx shadow q fp).commit_hash = none
    ∧ (getBlameInfo idx shadow q fp).file_path = none := by
  simp only [getBlameInfo, h]
  exact ⟨rfl, rfl, rfl, rfl, rfl, rfl, rfl, rfl⟩

/-- Witness for C4: hash `"xyz"` matches nothing in the sample index. -/
theorem getBlameInfo_no_snapshot_witness :
    findSnapshot sampleIdx.snapshots "xyz" = none
    ∧ (getBlameInfo sampleIdx sampleShadow "xyz"
        "auth.js").conversation_id = none
    ∧ (getBlameInfo sampleIdx sampleShadow "xyz"
        "auth.js").tool_operations = [] := by
  have h := getBlameInfo_no_snapshot sampleIdx sampleShadow "xyz"
    "auth.js" rfl
  exact ⟨rfl, h.1, h.2.2.2.2.2.1⟩

/-- C8: when the matched shadow entry's `ai_response` is empty (the source
defaults an absent response to `""` before composing), the composed
`ai_response` falls back to the conversation's first recorded response. -/
theorem getBlameInfo_empty_shadow_response (idx : MicroIndex)
    (shadow : String → Option ShadowFile) (q fp : String) (snap : Snapshot)
    (ctx : ShadowContext)
    (h1 : findSnapshot idx.snapshots q = some snap)
    (h2 : getShadowContext (shadow (basename fp)) snap.conversation_id
        = some ctx)
    (h3 : ctx.ai_response = "") :
    (getBlameInfo idx shadow q fp).ai_response =
      some (match convResponses (lookupConv idx.conversations
          snap.conversation_id) with
        | [] => "" | r :: _ => r) := by
  simp only [getBlameInfo, h1, composeBlame, h2, Option.map_some]
  simp [jsOr, h3]

/-- Witness for C8: the shadow entry for `auth.js` has `ai_response = ""`,
so the result falls back to the conversation's first response `"done"`. -/
theorem getBlameInfo_empty_shadow_response_witness :
    findSnapshot sampleIdx.snapshots "deadbeef" = some sampleSnap
    ∧ getShadowContext (sampleShadowEmptyResp (basename "auth.js"))
        sampleSnap.conversation_id
        = some (mkShadowContext sampleEntryEmptyResp)
    ∧ (mkShadowContext sampleEntryEmptyResp).ai_response = ""
    ∧ (getBlameInfo sampleIdx sampleShadowEmptyResp "deadbeef"
        "auth.js").ai_response = some "done" := by
  have h := getBlameInfo_empty_shadow_response sampleIdx
    sampleShadowEmptyResp "deadbeef" "auth.js" sampleSnap
    (mkShadowContext sampleEntryEmptyResp) rfl rfl rfl
  exact ⟨rfl, rfl, rfl, h.trans rfl⟩

/-- C9: with a non-empty snapshots map, querying with the empty string as
the commit hash matches the first snapshot in iteration order (every stored
commit value starts with `""`), and the result is the found-branch record
derived from that snapshot (in particular `file_path` is set, which the
not-found record never is). -/
theorem getBlameInfo_empty_hash (idx : MicroIndex)
    (shadow : String → Option ShadowFile) (fp k : String) (s : Snapshot)
    (rest : List (String × Snapshot))
    (h : idx.snapshots = (k, s) :: rest) :
    findSnapshot idx.snapshots "" = some s
    ∧ getBlameInfo idx shadow "" fp = composeBlame idx shadow "" fp s
    ∧ (getBlameInfo idx shadow "" fp).file_path = some fp := by
  have h1 : findSnapshot idx.snapshots "" = some s := by
    rw [h]
    simp [findSnapshot, jsStartsWith_empty]
  refine ⟨h1, ?_, ?_⟩
  · simp only [getBlameInfo, h1]
  · simp only [getBlameInfo, h1]
    rfl

/-- Witness for C9 on the sample index. -/
theorem getBlameInfo_empty_hash_witness :
    sampleIdx.snapshots = ("S1", sampleSnap) :: []
    ∧ findSnapshot sampleIdx.snapshots "" = some sampleSnap
    ∧ getBlameInfo sampleIdx sampleShadow "" "auth.js"
        = composeBlame sampleIdx sampleShadow "" "auth.js" sampleSnap
    ∧ (getBlameInfo sampleIdx sampleShadow "" "auth.js").file_path
        = some "auth.js" := by
  have h := getBlameInfo_empty_hash sampleIdx sampleShadow "auth.js" "S1"
    sampleSnap [] rfl
  exact ⟨rfl, h.1, h.2.1, h.2.2⟩

/-- A path lands in the `modified` list of explicit-mode
`findModifiedFiles` iff it was checked, both trees hold it, and the
contents differ. -/
theorem mem_modified_iff (project mirror : FS) (paths : List String)
    (p : String) :
    p ∈ (findModifiedFiles project mirror paths).1 ↔
      p ∈ paths ∧ ∃ a b, project p = some a ∧ mirror p = some b ∧ a ≠ b := by
  induction paths with
  | nil => simp [findModifiedFiles]
  | cons rp rest ih =>
    rcases hp : project rp with _ | a
    · simp only [findModifiedFiles, hp, ih, List.mem_cons]
      constructor
      · rintro ⟨hmem, hc⟩
        exact ⟨Or.inr hmem, hc⟩
      · rintro ⟨hor, hc⟩
        rcases hor with rfl | hmem
        · obtain ⟨x, y, hx, _, _⟩ := hc
          rw [hp] at hx
          exact absurd hx (by simp)
        · exact ⟨hmem, hc⟩
    · rcases hm : mirror rp with _ | b
      · simp only [findModifiedFiles, hp, hm, ih, List.mem_cons]
        constructor
        · rintro ⟨hmem, hc⟩
          exact ⟨Or.inr hmem, hc⟩
        · rintro ⟨hor, hc⟩
          rcases hor with rfl | hmem
          · obtain ⟨x, y, _, hy, _⟩ := hc
            rw [hm] at hy
            exact absurd hy (by simp)
          · exact ⟨hmem, hc⟩
      · by_cases hab : a = b
        · subst hab
          simp only [findModifiedFiles, hp, hm, ne_eq, not_true_eq_false,
            if_false, ih, List.mem_cons]
          constructor
          · rintro ⟨hmem, hc⟩
            exact ⟨Or.inr hmem, hc⟩
          · rintro ⟨hor, hc⟩
            rcases hor with rfl | hmem
            · obtain ⟨x, y, hx, hy, hxy⟩ := hc
              rw [hp] at hx
              rw [hm] at hy
              cases hx
              cases hy
              exact absurd rfl hxy
            · exact ⟨hmem, hc⟩
        · simp only [findModifiedFiles, hp, hm, ne_eq, hab,
            not_false_eq_true, if_true, List.mem_cons, ih]
          constructor
          · rintro (rfl | ⟨hmem, hc⟩)
            · exact ⟨Or.inl rfl, a, b, hp, hm, hab⟩
            · exact ⟨Or.inr hmem, hc⟩
          · rintro ⟨hor, hc⟩
            rcases hor with rfl | hmem
            · exact Or.inl rfl
            · exact Or.inr ⟨hmem, hc⟩

/-- A path lands in the `newFiles` list of explicit-mode
`findModifiedFiles` iff it was checked, the project holds it and the
mirror does not. -/
theorem mem_added_iff (project mirror : FS) (paths : List String)
    (p : String) :
    p ∈ (findModifiedFiles project mirror paths).2.1 ↔
      p ∈ paths ∧ (∃ a, project p = some a) ∧ mirror p = none := by
  induction paths with
  | nil => simp [findModifiedFiles]
  | cons rp rest ih =>
    rcases hp : project rp with _ | a
    · simp only [findModifiedFiles, hp, ih, List.mem_cons]
      constructor
      · rintro ⟨hmem, hc⟩
        exact ⟨Or.inr hmem, hc⟩
      · rintro ⟨hor, hc⟩
        rcases hor with rfl | hmem
        · obtain ⟨⟨x, hx⟩, _⟩ := hc
          rw [hp] at hx
          exact absurd hx (by simp)
        · exact ⟨hmem, hc⟩
    · rcases hm : mirror rp with _ | b
      · simp only [findModifiedFiles, hp, hm, List.mem_cons, ih]
        constructor
        · rintro (rfl | ⟨hmem, hc⟩)
          · exact ⟨Or.inl rfl, ⟨a, hp⟩, hm⟩
          · exact ⟨Or.inr hmem, hc⟩
        · rintro ⟨hor, hc⟩
          rcases hor with rfl | hmem
          · exact Or.inl rfl
          · exact Or.inr ⟨hmem, hc⟩
      · simp only [findModifiedFiles, hp, hm]
        have proj :
            (if a ≠ b then rp :: (findModifiedFiles project mirror rest).1
              else (findModifiedFiles project mirror rest).1,
             (findModifiedFiles project mirror rest).2.1,
             (findModifiedFiles project mirror rest).2.2).2.1
            = (findModifiedFiles project mirror rest).2.1 := rfl
        rw [proj, ih, List.mem_cons]
        constructor
        · rintro ⟨hmem, hc⟩
          exact ⟨Or.inr hmem, hc⟩
        · rintro ⟨hor, hc⟩
          rcases hor with rfl | hmem
          · obtain ⟨_, hmn⟩ := hc
            rw [hm] at hmn
            exact absurd hmn (by simp)
          · exact ⟨hmem, hc⟩

/-- A path lands in the `deleted` list of explicit-mode
`findModifiedFiles` iff it was checked and is absent from the project —
whether or not the mirror holds it. -/
theorem mem_deleted_iff (project mirror : FS) (paths : List String)
    (p : String) :
    p ∈ (findModifiedFiles project mirror paths).2.2 ↔
      p ∈ paths ∧ project p = none := by
  induction paths with
  | nil => simp [findModifiedFiles]
  | cons rp rest ih =>
    rcases hp : project rp with _ | a
    · simp only [findModifiedFiles, hp, List.mem_cons, ih]
      constructor
      · rintro (rfl | ⟨hmem, hc⟩)
        · exact ⟨Or.inl rfl, hp⟩
        · exact ⟨Or.inr hmem, hc⟩
      · rintro ⟨hor, hc⟩
        rcases hor with rfl | hmem
        · exact Or.inl rfl
        · exact Or.inr ⟨hmem, hc⟩
    · rcases hm : mirror rp with _ | b
      · simp only [findModifiedFiles, hp, hm, List.mem_cons, ih]
        constructor
        · rintro ⟨hmem, hc⟩
          exact ⟨Or.inr hmem, hc⟩
        · rintro ⟨hor, hc⟩
          rcases hor with rfl | hmem
          · rw [hp] at hc
            exact absurd hc (by simp)
          · exact ⟨hmem, hc⟩
      · simp only [findModifiedFiles, hp, hm]
        have proj :
            (if a ≠ b then rp :: (findModifiedFiles project mirror rest).1
              else (findModifiedFiles project mirror rest).1,
             (findModifiedFiles project mirror rest).2.1,
             (findModifiedFiles project mirror rest).2.2).2.2
            = (findModifiedFiles project mirror rest).2.2 := rfl
        rw [proj, ih, List.mem_cons]
        constructor
        · rintro ⟨hmem, hc⟩
          exact ⟨Or.inr hmem, hc⟩
        · rintro ⟨hor, hc⟩
          rcases hor with rfl | hmem
          · rw [hp] at hc
            exact absurd hc (by simp)
          · exact ⟨hmem, hc⟩

/-- C5 counterexample: the claim's `deleted` condition requires the path to
be present in the mirror, but a path explicitly listed while absent from
BOTH trees is still classified `deleted` by the source (line 113 checks
only the project side). -/
theorem findModifiedFiles_deleted_counterexample :
    ¬ (∀ p, p ∈ (findModifiedFiles emptyFS emptyFS ["ghost"]).2.2 →
        emptyFS p = none ∧ (emptyFS p).isSome = true) := by
  intro h
  have hmem : "ghost" ∈ (findModifiedFiles emptyFS emptyFS ["ghost"]).2.2 := by
    show "ghost" ∈ ["ghost"]
    exact List.mem_singleton.mpr rfl
  have := (h "ghost" hmem).2
  simp [emptyFS] at this

/-- C5 (amended): explicit-mode `findModifiedFiles` classifies a checked
path as `modified` iff both trees hold it with differing byte contents, as
`added` iff the project holds it and the mirror does not, and as `deleted`
iff the project does not hold it (regardless of the mirror). -/
theorem findModifiedFiles_explicit_classification (project mirror : FS)
    (paths : List String) (p : String) :
    (p ∈ (findModifiedFiles project mirror paths).1 ↔
      p ∈ paths ∧ ∃ a b, project p = some a ∧ mirror p = some b ∧ a ≠ b)
    ∧ (p ∈ (findModifiedFiles project mirror paths).2.1 ↔
      p ∈ paths ∧ (∃ a, project p = some a) ∧ mirror p = none)
    ∧ (p ∈ (findModifiedFiles project mirror paths).2.2 ↔
      p ∈ paths ∧ project p = none) :=
  ⟨mem_modified_iff project mirror paths p,
   mem_added_iff project mirror paths p,
   mem_deleted_iff project mirror paths p⟩

/-- C6: `sync` fails closed before any file operation, each precondition
with a distinct user-actionable reason: missing mirror root, mirror root
not a version-control working tree, and dirty working tree unless `force`
is set; a failed `validateSetup` makes `sync` return failure with zero file
operations attempted and the mirror untouched. -/
theorem sync_fails_closed (env : SyncEnv) (force : Bool)
    (project mirror : FS) (ioFails : String → Bool) (files : List String)
    (message : Option String) (commitOk : Bool) :
    (env.tigDirExists = false →
      validateSetup env force = (false,
        ["No .tig directory found",
         "Run a Claude session first to initialize Tig"]))
    ∧ (env.tigDirExists = true → env.tigGitExists = false →
      validateSetup env force = (false,
        [".tig is not a git repository",
         "Run tig_submodule_setup.py to fix this"]))
    ∧ (∀ out, env.tigDirExists = true → env.tigGitExists = true →
      env.gitStatus = some out → jsTrim out ≠ "" →
      validateSetup env false = (false,
        ["Uncommitted changes in .tig directory",
         "Commit or stash changes first, or use --force"]))
    ∧ (∀ out, env.tigDirExists = true → env.tigGitExists = true →
      env.gitStatus = some out → validateSetup env true = (true, []))
    ∧ (["No .tig directory found",
        "Run a Claude session first to initialize Tig"] ≠
       [".tig is not a git repository",
        "Run tig_submodule_setup.py to fix this"]
      ∧ [".tig is not a git repository",
         "Run tig_submodule_setup.py to fix this"] ≠
        ["Uncommitted changes in .tig directory",
         "Commit or stash changes first, or use --force"]
      ∧ ["No .tig directory found",
         "Run a Claude session first to initialize Tig"] ≠
        ["Uncommitted changes in .tig directory",
         "Commit or stash changes first, or use --force"])
    ∧ ((validateSetup env force).1 = false →
      sync env project mirror ioFails files message force commitOk =
        { success := false, committed := false, successCount := 0
          opsAttempted := 0, mirror := mirror, commitMessage := none }) := by
  refine ⟨?_, ?_, ?_, ?_, ⟨by decide, by decide, by decide⟩, ?_⟩
  · intro h
    simp [validateSetup, h]
  · intro h1 h2
    simp [validateSetup, h1, h2]
  · intro out h1 h2 h3 h4
    simp [validateSetup, h1, h2, h3, h4]
  · intro out h1 h2 h3
    simp [validateSetup, h1, h2, h3]
  · intro h
    simp only [sync, h, Bool.not_false, if_true]

/-- Witness for C6: a missing `.tig` directory fails validation and stops
`sync` before any file operation. -/
theorem sync_fails_closed_witness :
    SyncEnv.tigDirExists ⟨false, true, some ""⟩ = false
    ∧ validateSetup ⟨false, true, some ""⟩ false = (false,
        ["No .tig directory found",
         "Run a Claude session first to initialize Tig"])
    ∧ sync ⟨false, true, some ""⟩ projA mirrA (fun _ => false) ["a"]
        none false true =
      { success := false, committed := false, successCount := 0
        opsAttempted := 0, mirror := mirrA, commitMessage := none } := by
  have h := sync_fails_closed ⟨false, true, some ""⟩ false projA mirrA
    (fun _ => false) ["a"] none true
  exact ⟨rfl, h.1 rfl, h.2.2.2.2.2 rfl⟩

/-- C7: once validation passes and at least one change is detected, every
file operation is attempted (individual failures do not abort the batch);
if zero operations succeed `sync` fails without invoking the commit step,
and if at least one succeeds the commit step runs. -/
theorem sync_partial_success (env : SyncEnv) (project mirror : FS)
    (ioFails : String → Bool) (files : List String)
    (message : Option String) (force : Bool) (commitOk : Bool)
    (m n d : List String)
    (hv : (validateSetup env force).1 = true)
    (hf : findModifiedFiles project mirror files = (m, n, d))
    (ht : m.length + n.length + d.length ≠ 0) :
    (sync env project mirror ioFails files message force
        commitOk).opsAttempted = m.length + n.length + d.length
    ∧ ((sync env project mirror ioFails files message force
        commitOk).successCount = 0 →
      (sync env project mirror ioFails files message force
        commitOk).success = false
      ∧ (sync env project mirror ioFails files message force
        commitOk).committed = false)
    ∧ (1 ≤ (sync env project mirror ioFails files message force
        commitOk).successCount →
      (sync env project mirror ioFails files message force
        commitOk).committed = true) := by
  have hne : ((m.isEmpty && n.isEmpty) && d.isEmpty) = false := by
    rcases m with _ | ⟨a, m⟩
    · rcases n with _ | ⟨b, n⟩
      · rcases d with _ | ⟨c, d⟩
        · simp at ht
        · simp
      · simp
    · simp
  simp only [sync, hv, Bool.not_true, Bool.false_eq_true, if_false, hf, hne]
  split
  · refine ⟨?_, fun _ => ⟨rfl, rfl⟩, fun habs => ?_⟩
    · simp only [List.length_append, List.length_map]
    · simp at habs
  · refine ⟨?_, fun h0 => ?_, fun _ => rfl⟩
    · simp only [List.length_append, List.length_map]
    · simp only [h0] at *
      omega

/-- Witness for C7: one modified file whose copy faults — zero successes,
failure reported, no commit invoked. -/
theorem sync_partial_success_witness :
    (validateSetup ⟨true, true, some ""⟩ false).1 = true
    ∧ findModifiedFiles projA mirrA ["a"] = (["a"], [], [])
    ∧ (["a"].length + List.length ([] : List String) +
        List.length ([] : List String)) ≠ 0
    ∧ (sync ⟨true, true, some ""⟩ projA mirrA (fun _ => true) ["a"]
        none false true).opsAttempted = 1
    ∧ (sync ⟨true, true, some ""⟩ projA mirrA (fun _ => true) ["a"]
        none false true).successCount = 0
    ∧ (sync ⟨true, true, some ""⟩ projA mirrA (fun _ => true) ["a"]
        none false true).success = false
    ∧ (sync ⟨true, true, some ""⟩ projA mirrA (fun _ => true) ["a"]
        none false true).committed = false := by
  have h := sync_partial_success ⟨true, true, some ""⟩ projA mirrA
    (fun _ => true) ["a"] none false true ["a"] [] [] rfl rfl (by decide)
  exact ⟨rfl, rfl, by decide, h.1.trans rfl, rfl, (h.2.1 rfl).1,
    (h.2.1 rfl).2⟩

/-- C10: mirror deletion is idempotent and deleting an absent path counts
as success: absent a fault on `rp`, `syncFileToTig` with `isDeletion = true`
returns `true` whether or not the mirror holds `rp`, a second identical
deletion also returns `true`, an absent-path deletion leaves the mirror
untouched, and the deletion contributes one success to `sync`'s count. -/
theorem syncFileToTig_delete_idempotent (project : FS)
    (ioFails : String → Bool) (mirror : FS) (rp : String)
    (h : ioFails rp = false) :
    (syncFileToTig project ioFails mirror rp true).1 = true
    ∧ (syncFileToTig project ioFails
        (syncFileToTig project ioFails mirror rp true).2 rp true).1 = true
    ∧ (mirror rp = none →
        syncFileToTig project ioFails mirror rp true = (true, mirror))
    ∧ (runOps project ioFails mirror [(rp, true)]).2 = 1 := by
  rcases hm : mirror rp with _ | bytes
  · exact ⟨by simp [syncFileToTig, hm], by simp [syncFileToTig, hm],
      fun _ => by simp [syncFileToTig, hm],
      by simp [runOps, syncFileToTig, hm]⟩
  · refine ⟨by simp [syncFileToTig, hm, h], ?_, ?_,
      by simp [runOps, syncFileToTig, hm, h]⟩
    · have h2 : (syncFileToTig project ioFails mirror rp true).2
          = removeFile mirror rp := by
        simp [syncFileToTig, hm, h]
      rw [h2]
      have h3 : removeFile mirror rp rp = none := by simp [removeFile]
      simp [syncFileToTig, h3]
    · intro habs
      cases habs

/-- Witness for C10: deleting `a` from a mirror that holds it succeeds, a
second deletion also succeeds, and deleting from an empty mirror is a
success that changes nothing. -/
theorem syncFileToTig_delete_idempotent_witness :
    (fun _ => false : String → Bool) "a" = false
    ∧ (syncFileToTig emptyFS (fun _ => false) mirrA "a" true).1 = true
    ∧ (syncFileToTig emptyFS (fun _ => false)
        (syncFileToTig emptyFS (fun _ => false) mirrA "a" true).2
        "a" true).1 = true
    ∧ syncFileToTig emptyFS (fun _ => false) emptyFS "a" true
        = (true, emptyFS)
    ∧ (runOps emptyFS (fun _ => false) mirrA [("a", true)]).2 = 1 := by
  have h1 := syncFileToTig_delete_idempotent emptyFS (fun _ => false)
    mirrA "a" rfl
  have h2 := syncFileToTig_delete_idempotent emptyFS (fun _ => false)
    emptyFS "a" rfl
  exact ⟨rfl, h1.1, h1.2.1, h2.2.2.1 rfl, h1.2.2.2⟩

end Tig
